import Mathlib

/-!
Verification development for the tier-pricing draft-order service
(src/api/create-draft-order.js).

The embedding below translates the core of the source file into Lean:

* JS numbers (prices, spend totals, thresholds, discount percents) are
  modelled as exact rationals; integer counters and millisecond delays as
  naturals.  IEEE-754 rounding error is outside the model.
* Remote calls are modelled by passing their outcomes in explicitly: the
  customer-profile fetch, the two-step theme-settings fetch, and the
  draft-order POST each get an outcome type, and the functions that the
  source writes against `fetch` become pure functions of those outcomes.
* A JS value that is absent or falsy where the source applies `|| default`
  is modelled as `none`, since `||` treats absent, empty-string, 0, NaN and
  false alike.
-/

/-! ## Constants (source lines 13-19) -/

def MAX_RETRIES : Nat := 3

def INITIAL_RETRY_DELAY : Nat := 1000

def CACHE_TTL : Nat := 5 * 60 * 1000

/-! ## Data model -/

/-- One tier slot as built by getTierConfig: name, tag, discount percent,
spend threshold. -/
structure TierDefinition where
  name : String
  tag : String
  discount : ℚ
  threshold : ℚ
deriving DecidableEq, Repr

/-- The tier configuration object: the prioritize-tags flag plus the ordered
tier list. -/
structure TierConfig where
  prioritize_tags : Bool
  tiers : List TierDefinition
deriving DecidableEq, Repr

/-- Result of getCustomerTier: tier name (or null) and discount percent. -/
structure ResolvedTier where
  tier : Option String
  discount : ℚ
deriving DecidableEq, Repr

/-- Uppercasing of a string, character by character; models
String.prototype.toUpperCase on the ASCII tags the source compares. -/
def upcase (s : String) : String :=
  ⟨s.data.map Char.toUpper⟩

/-! ## Default configuration (source lines 139-151) -/

/-- Hardcoded fallback config returned when the settings fetch fails
(getDefaultTierConfig, source lines 139-151). -/
def getDefaultTierConfig : TierConfig :=
  { prioritize_tags := true
    tiers := [
      { name := "BLACK DIAMOND", tag := "BLACK DIAMOND", discount := 10, threshold := 1000000 },
      { name := "DIAMOND", tag := "DIAMOND", discount := 8, threshold := 3000 },
      { name := "PLATINUM", tag := "PLATINUM", discount := 6, threshold := 1500 },
      { name := "GOLD", tag := "GOLD", discount := 4, threshold := 500 },
      { name := "SILVER", tag := "SILVER", discount := 2, threshold := 150 },
      { name := "MEMBER", tag := "MEMBER", discount := 0, threshold := 0 } ] }

/-! ## Theme settings and config construction (source lines 75-120) -/

/-- The fields of settings_data.json.current that getTierConfig reads.
Each field is `none` when the value is absent or JS-falsy (the source
applies `|| default`, and for thresholds `parseFloat(x) || 0`, so absent,
empty, 0, false and NaN all take the default). -/
structure ThemeSettings where
  tier_prioritize_tags : Option Bool
  tier_1_name : Option String
  tier_1_tag : Option String
  tier_1_discount : Option ℚ
  tier_1_threshold : Option ℚ
  tier_2_name : Option String
  tier_2_tag : Option String
  tier_2_discount : Option ℚ
  tier_2_threshold : Option ℚ
  tier_3_name : Option String
  tier_3_tag : Option String
  tier_3_discount : Option ℚ
  tier_3_threshold : Option ℚ
  tier_4_name : Option String
  tier_4_tag : Option String
  tier_4_discount : Option ℚ
  tier_4_threshold : Option ℚ
  tier_5_name : Option String
  tier_5_tag : Option String
  tier_5_discount : Option ℚ
  tier_5_threshold : Option ℚ
  tier_6_name : Option String
  tier_6_tag : Option String
  tier_6_discount : Option ℚ
  tier_6_threshold : Option ℚ
deriving DecidableEq, Repr

/-- ThemeSettings with every field absent. -/
def emptySettings : ThemeSettings :=
  ⟨none, none, none, none, none, none, none, none, none, none, none, none, none,
   none, none, none, none, none, none, none, none, none, none, none, none⟩

/-- Construction of the tier config from parsed theme settings
(source lines 80-120).  Note the source quirks in the sixth slot: its tag
is read from `settings.tier_6_name` (line 115), and its threshold is the
literal 0 (line 117); `settings.tier_6_tag` and `settings.tier_6_threshold`
are never read. -/
def buildTierConfig (s : ThemeSettings) : TierConfig :=
  { prioritize_tags := s.tier_prioritize_tags.getD false
    tiers := [
      { name := s.tier_1_name.getD "BLACK DIAMOND", tag := s.tier_1_tag.getD "BLACK DIAMOND",
        discount := s.tier_1_discount.getD 0, threshold := s.tier_1_threshold.getD 0 },
      { name := s.tier_2_name.getD "DIAMOND", tag := s.tier_2_tag.getD "DIAMOND",
        discount := s.tier_2_discount.getD 0, threshold := s.tier_2_threshold.getD 0 },
      { name := s.tier_3_name.getD "PLATINUM", tag := s.tier_3_tag.getD "PLATINUM",
        discount := s.tier_3_discount.getD 0, threshold := s.tier_3_threshold.getD 0 },
      { name := s.tier_4_name.getD "GOLD", tag := s.tier_4_tag.getD "GOLD",
        discount := s.tier_4_discount.getD 0, threshold := s.tier_4_threshold.getD 0 },
      { name := s.tier_5_name.getD "SILVER", tag := s.tier_5_tag.getD "SILVER",
        discount := s.tier_5_discount.getD 0, threshold := s.tier_5_threshold.getD 0 },
      { name := s.tier_6_name.getD "MEMBER", tag := s.tier_6_name.getD "MEMBER",
        discount := s.tier_6_discount.getD 0, threshold := 0 } ] }

/-- Modelled from the claim wording (C10), for comparison with
buildTierConfig: uniform per-field defaulting in which every slot,
including the sixth, takes its tag from its own tag field and its
threshold from its own threshold field. -/
def specUniformTierConfig (s : ThemeSettings) : TierConfig :=
  { prioritize_tags := s.tier_prioritize_tags.getD false
    tiers := [
      { name := s.tier_1_name.getD "BLACK DIAMOND", tag := s.tier_1_tag.getD "BLACK DIAMOND",
        discount := s.tier_1_discount.getD 0, threshold := s.tier_1_threshold.getD 0 },
      { name := s.tier_2_name.getD "DIAMOND", tag := s.tier_2_tag.getD "DIAMOND",
        discount := s.tier_2_discount.getD 0, threshold := s.tier_2_threshold.getD 0 },
      { name := s.tier_3_name.getD "PLATINUM", tag := s.tier_3_tag.getD "PLATINUM",
        discount := s.tier_3_discount.getD 0, threshold := s.tier_3_threshold.getD 0 },
      { name := s.tier_4_name.getD "GOLD", tag := s.tier_4_tag.getD "GOLD",
        discount := s.tier_4_discount.getD 0, threshold := s.tier_4_threshold.getD 0 },
      { name := s.tier_5_name.getD "SILVER", tag := s.tier_5_tag.getD "SILVER",
        discount := s.tier_5_discount.getD 0, threshold := s.tier_5_threshold.getD 0 },
      { name := s.tier_6_name.getD "MEMBER", tag := s.tier_6_tag.getD "MEMBER",
        discount := s.tier_6_discount.getD 0, threshold := s.tier_6_threshold.getD 0 } ] }

/-- The amended description of buildTierConfig: uniform per-field
defaulting for slots 1-5 and the flag, but the sixth slot keeps threshold
0 and takes its tag from the tier_6_name field. -/
def specAmendedTierConfig (s : ThemeSettings) : TierConfig :=
  let u := specUniformTierConfig s
  { u with tiers := u.tiers.take 5 ++
      [ { name := s.tier_6_name.getD "MEMBER", tag := s.tier_6_name.getD "MEMBER",
          discount := s.tier_6_discount.getD 0, threshold := 0 } ] }

/-- Settings in which the sixth slot has an explicit tag and threshold and
everything else is absent; used to separate buildTierConfig from the
uniform per-field reading. -/
def vipSettings : ThemeSettings :=
  { emptySettings with tier_6_tag := some "VIP", tier_6_threshold := some 500 }

/-! ## Tier configuration cache (source lines 17-18 and 26-134) -/

/-- The module-level mutable cache: cachedTierConfig and cacheExpiry.
Time is in milliseconds since the epoch. -/
structure CacheState where
  cachedTierConfig : Option TierConfig
  cacheExpiry : Nat
deriving DecidableEq, Repr

/-- Outcome of the two-step remote settings fetch, as observed by
getTierConfig: each failure constructor is one early-return path of the
source (lines 45, 53, 70, 76 and 130), and ok carries the parsed
settings. -/
inductive ConfigFetchOutcome where
  | themesNotOk
  | noActiveTheme
  | assetNotOk
  | parseError
  | thrown
  | ok (settings : ThemeSettings)
deriving DecidableEq, Repr

/-- True on every constructor except ok. -/
def ConfigFetchOutcome.isFailure : ConfigFetchOutcome → Bool
  | .ok _ => false
  | _ => true

/-- Result of one getTierConfig call: the returned config, the cache state
after the call, and whether a remote fetch was attempted. -/
structure ConfigCallOut where
  config : TierConfig
  state : CacheState
  remoteCall : Bool
deriving DecidableEq, Repr

/-- The fetch path of getTierConfig (source lines 32-133): on any failure
return the default config leaving the cache untouched; on success build,
cache with expiry now + CACHE_TTL, and return the new config. -/
def getTierConfigFetch (st : CacheState) (now : Nat) (outcome : ConfigFetchOutcome) :
    ConfigCallOut :=
  match outcome with
  | .ok settings =>
      let tierConfig := buildTierConfig settings
      ⟨tierConfig, ⟨some tierConfig, now + CACHE_TTL⟩, true⟩
  | _ => ⟨getDefaultTierConfig, st, true⟩

/-- getTierConfig (source lines 26-134): serve from cache while
cachedTierConfig is set and now is before cacheExpiry, otherwise run the
fetch path. -/
def getTierConfig (st : CacheState) (now : Nat) (outcome : ConfigFetchOutcome) :
    ConfigCallOut :=
  match st.cachedTierConfig with
  | some c => if now < st.cacheExpiry then ⟨c, st, false⟩ else getTierConfigFetch st now outcome
  | none => getTierConfigFetch st now outcome

/-! ## Tier resolution (source lines 162-229) -/

/-- Accumulator of the spend loop (source lines 198-200). -/
structure SpendState where
  tierFromSpent : Option String
  discountFromSpent : ℚ
  maxThreshold : ℚ
deriving DecidableEq, Repr

/-- One iteration of the spend loop (source lines 202-208): take the tier
when the customer spend reaches its threshold and the threshold strictly
exceeds the best threshold so far. -/
def spendStep (totalSpent : ℚ) (s : SpendState) (t : TierDefinition) : SpendState :=
  if t.threshold ≤ totalSpent ∧ s.maxThreshold < t.threshold then
    ⟨some t.name, t.discount, t.threshold⟩
  else s

/-- The whole spend loop, started from the initializers of lines 198-200
(null tier, 0 discount, maxThreshold -1). -/
def spendScan (totalSpent : ℚ) (tiers : List TierDefinition) : SpendState :=
  tiers.foldl (spendStep totalSpent) ⟨none, 0, -1⟩

/-- The spend-based resolution result as a ResolvedTier. -/
def spendResolved (tiers : List TierDefinition) (totalSpent : ℚ) : ResolvedTier :=
  let s := spendScan totalSpent tiers
  ⟨s.tierFromSpent, s.discountFromSpent⟩

/-- Whether the threshold of t is at least the threshold of every
qualifying tier of l (a tier qualifies when totalSpent reaches its
threshold). -/
def leAllQualifying (spent : ℚ) (l : List TierDefinition) (t : TierDefinition) : Bool :=
  l.all (fun u => decide (u.threshold ≤ spent → u.threshold ≤ t.threshold))

/-- The selection predicate of the claim wording (C2): t qualifies and its
threshold is maximal among the qualifying tiers of l. -/
def specQualMax (l : List TierDefinition) (spent : ℚ) (t : TierDefinition) : Bool :=
  decide (t.threshold ≤ spent) && leAllQualifying spent l t

/-- Modelled from the claim wording (C2), for comparison with spendScan:
the first tier in scan order that qualifies and whose threshold is maximal
among qualifying tiers. -/
def specSpendSelect (l : List TierDefinition) (spent : ℚ) : Option TierDefinition :=
  l.find? (specQualMax l spent)

/-- Internal predicate for characterizing the spend loop from an arbitrary
running maxThreshold m. -/
def scanPred (spent m : ℚ) (l : List TierDefinition) (t : TierDefinition) : Bool :=
  decide (t.threshold ≤ spent ∧ m < t.threshold) && leAllQualifying spent l t

/-- The tag-override loop (source lines 214-219): first tier, in stored
order, whose uppercased tag is among the (already uppercased) customer
tags. -/
def tagScan (customerTags : List String) : List TierDefinition → Option TierDefinition
  | [] => none
  | t :: rest =>
      if customerTags.contains (upcase t.tag) then some t else tagScan customerTags rest

/-- Modelled from the claim wording (C3), for comparison with tagScan:
case-insensitive membership of the tag of t in the raw customer tag
set. -/
def tagMatchesCI (rawTags : List String) (t : TierDefinition) : Bool :=
  rawTags.any (fun s => upcase s == upcase t.tag)

/-- Modelled from the claim wording (C3): the first tier in stored order
whose tag matches a customer tag case-insensitively. -/
def specTagSelect (l : List TierDefinition) (rawTags : List String) : Option TierDefinition :=
  l.find? (tagMatchesCI rawTags)

/-- The resolution core of getCustomerTier (source lines 190-223), given
the parsed customer data and the loaded config: spend loop first, then,
when prioritize_tags is set, the tag loop with early return, else the
spend result. -/
def resolveTierCore (cfg : TierConfig) (totalSpent : ℚ) (rawTags : List String) :
    ResolvedTier :=
  let customerTags := rawTags.map upcase
  let s := spendScan totalSpent cfg.tiers
  if cfg.prioritize_tags then
    match tagScan customerTags cfg.tiers with
    | some t => ⟨some t.name, t.discount⟩
    | none => ⟨s.tierFromSpent, s.discountFromSpent⟩
  else ⟨s.tierFromSpent, s.discountFromSpent⟩

/-- Outcome of the customer-profile fetch as observed by getCustomerTier:
a non-ok status, a thrown error, or the parsed total spend and raw tag
list (the source splits the comma-separated tag string; the split is
modelled as already done, the per-tag uppercasing is part of the
model). -/
inductive CustomerFetch where
  | httpError (status : Nat)
  | thrown
  | ok (totalSpent : ℚ) (rawTags : List String)
deriving DecidableEq, Repr

/-- JS falsiness of the customerId argument: absent or empty string. -/
def jsFalsyId : Option String → Bool
  | none => true
  | some s => s == ""

/-- getCustomerTier (source lines 162-229): early return on a falsy
customerId with no remote call, absorbed failure on a failed profile
fetch, and otherwise the resolution core against the loaded config.  The
second component records whether the profile fetch was attempted. -/
def getCustomerTier (customerId : Option String) (fetched : CustomerFetch)
    (cfg : TierConfig) : ResolvedTier × Bool :=
  if jsFalsyId customerId then (⟨none, 0⟩, false)
  else
    match fetched with
    | .httpError _ => (⟨none, 0⟩, true)
    | .thrown => (⟨none, 0⟩, true)
    | .ok totalSpent rawTags => (resolveTierCore cfg totalSpent rawTags, true)

/-! ## Discount amount and line items (source lines 291-309 and 434-438) -/

/-- calculateDiscountAmount (source lines 434-438), in integer cents:
totalPrice = price * quantity, then (totalPrice * percent / 100) rendered
with toFixed(2).  toFixed picks the closest hundredth, taking the larger
on a tie, which on exact rationals is Mathlib round of the cent value. -/
def calculateDiscountAmount (price quantity percent : ℚ) : ℤ :=
  let totalPrice := price * quantity
  round (totalPrice * percent / 100 * 100)

/-- Modelled from the claim wording (C6): rounding to two decimals with
half-up rounding at the cent boundary, in integer cents: add half a cent
and take the floor. -/
def round2HalfUp (x : ℚ) : ℤ :=
  ⌊x * 100 + 1 / 2⌋

/-- One inbound line item: variant id, quantity, unit price, and the
client-supplied discount percent (validated for range by the handler,
never used for pricing). -/
structure LineItemRequest where
  variant_id : String
  quantity : ℚ
  price : ℚ
  discount_percent : ℚ
deriving DecidableEq, Repr

/-- The applied_discount block attached to an outgoing line item
(source lines 300-305); amount in integer cents. -/
structure AppliedDiscount where
  description : String
  value_type : String
  value : String
  amount : ℤ
deriving DecidableEq, Repr

/-- One outgoing line item (source lines 292-308). -/
structure LineItem where
  variant_id : String
  quantity : ℚ
  applied_discount : Option AppliedDiscount
deriving DecidableEq, Repr

/-- Rendering of the resolved tier name inside the description template:
JS string interpolation prints null as the word null. -/
def optStr : Option String → String
  | some s => s
  | none => "null"

/-- The per-item mapping of the handler (source lines 291-309): copy
variant and quantity; attach applied_discount only when the
server-resolved discount is positive, built purely from the resolved tier
and the item price and quantity. -/
def mkLineItem (customerTier : Option String) (serverDiscount : ℚ)
    (item : LineItemRequest) : LineItem :=
  { variant_id := item.variant_id
    quantity := item.quantity
    applied_discount :=
      if 0 < serverDiscount then
        some { description :=
                 optStr customerTier ++ " Tier Discount " ++ toString serverDiscount ++ "%"
               value_type := "percentage"
               value := toString serverDiscount
               amount := calculateDiscountAmount item.price item.quantity serverDiscount }
      else none }

/-- The full line-item list of the outgoing draft-order payload. -/
def buildLineItems (items : List LineItemRequest) (resolved : ResolvedTier) :
    List LineItem :=
  items.map (mkLineItem resolved.tier resolved.discount)

/-- An item with its client discount field cleared, for stating that the
payload never depends on that field. -/
def eraseClientDiscount (i : LineItemRequest) : LineItemRequest :=
  { i with discount_percent := 0 }

/-! ## Retry wrapper (source lines 356-422) -/

/-- The error values the wrapper can throw, reduced to what the control
flow inspects: the fixed rate-limit-exhausted message (which does not
contain the word fetch), the synthesized API-error message (which contains
the word fetch exactly when the response body text does), and an error
thrown by fetch itself. -/
inductive ErrMsg where
  | rateLimitExceeded
  | apiError (status : Nat) (bodyHasFetch : Bool)
  | networkError (messageHasFetch : Bool)
deriving DecidableEq, Repr

/-- Whether error.message.includes of the word fetch is true. -/
def mentionsFetch : ErrMsg → Bool
  | .rateLimitExceeded => false
  | .apiError _ b => b
  | .networkError b => b

/-- One fetch outcome seen by an attempt: an HTTP response with status,
optional Retry-After seconds and whether the body text contains the word
fetch, or a thrown error with whether its message contains the word
fetch. -/
inductive FetchOutcome where
  | response (status : Nat) (retryAfter : Option Nat) (bodyHasFetch : Bool)
  | thrown (messageHasFetch : Bool)
deriving DecidableEq, Repr

/-- Result of a whole wrapper call. -/
inductive CallResult where
  | success
  | failure (e : ErrMsg)
deriving DecidableEq, Repr

/-- Observable trace of a wrapper call: the waits performed in order (in
milliseconds), the final result, and the total number of fetch attempts
made. -/
structure RunOut where
  delays : List Nat
  result : CallResult
  attempts : Nat
deriving DecidableEq, Repr

/-- The exponential backoff delay INITIAL_RETRY_DELAY * 2 ^ retryCount
(source lines 373, 396 and 413). -/
def backoffDelay (retryCount : Nat) : Nat :=
  INITIAL_RETRY_DELAY * 2 ^ retryCount

/-- response.ok of the fetch API: status in the 200-299 range. -/
def responseOk (status : Nat) : Bool :=
  decide (200 ≤ status) && decide (status < 300)

/-- One frame of createDraftOrderWithRetry (source lines 356-422), fueled
for structural recursion; the script maps the index of each fetch attempt
to its outcome.  The recursive calls of the source are `return
createDraftOrderWithRetry(...)` without await, so a rejection from a
retried call bypasses the catch of the caller frame and propagates
directly; each frame catches only what its own body throws.  A thrown
error is retried when retryCount < MAX_RETRIES and its message contains
the word fetch; note that the synthesized 4xx API error is itself thrown
inside the try block, so it takes the same catch path. -/
def runRetryAux : Nat → (Nat → FetchOutcome) → Nat → Nat → Option RunOut
  | 0, _, _, _ => none
  | fuel + 1, script, idx, retryCount =>
    match script idx with
    | .thrown hasFetch =>
        if decide (retryCount < MAX_RETRIES) && mentionsFetch (.networkError hasFetch) then
          match runRetryAux fuel script (idx + 1) (retryCount + 1) with
          | none => none
          | some out => some ⟨backoffDelay retryCount :: out.delays, out.result, out.attempts⟩
        else some ⟨[], .failure (.networkError hasFetch), idx + 1⟩
    | .response status retryAfter bodyHasFetch =>
        if status = 429 then
          if retryCount < MAX_RETRIES then
            let delay := match retryAfter with
              | some secs => secs * 1000
              | none => backoffDelay retryCount
            match runRetryAux fuel script (idx + 1) (retryCount + 1) with
            | none => none
            | some out => some ⟨delay :: out.delays, out.result, out.attempts⟩
          else some ⟨[], .failure .rateLimitExceeded, idx + 1⟩
        else if responseOk status then some ⟨[], .success, idx + 1⟩
        else if decide (500 ≤ status) && decide (retryCount < MAX_RETRIES) then
          match runRetryAux fuel script (idx + 1) (retryCount + 1) with
          | none => none
          | some out => some ⟨backoffDelay retryCount :: out.delays, out.result, out.attempts⟩
        else if decide (retryCount < MAX_RETRIES)
              && mentionsFetch (.apiError status bodyHasFetch) then
          match runRetryAux fuel script (idx + 1) (retryCount + 1) with
          | none => none
          | some out => some ⟨backoffDelay retryCount :: out.delays, out.result, out.attempts⟩
        else some ⟨[], .failure (.apiError status bodyHasFetch), idx + 1⟩

/-- createDraftOrderWithRetry entered at retryCount 0.  The fuel
MAX_RETRIES + 2 strictly bounds the frame nesting depth, since every
recursion increments retryCount and requires retryCount < MAX_RETRIES. -/
def createDraftOrderWithRetry (script : Nat → FetchOutcome) : Option RunOut :=
  runRetryAux (MAX_RETRIES + 2) script 0 0

/-! ## Theorems -/

/-- Helper: find? only depends on the predicate values at members. -/
theorem find?_congr_mem {α : Type} {p q : α → Bool} :
    ∀ (l : List α), (∀ a ∈ l, p a = q a) → l.find? p = l.find? q := by
  intro l
  induction l with
  | nil => intro _; rfl
  | cons a r ih =>
    intro h
    have ha := h a (List.mem_cons_self a r)
    by_cases hp : p a = true
    · rw [List.find?_cons_of_pos r hp, List.find?_cons_of_pos r (ha.symm.trans hp)]
    · rw [List.find?_cons_of_neg r hp,
        List.find?_cons_of_neg r (fun hq => hp (ha.trans hq)),
        ih (fun x hx => h x (List.mem_cons_of_mem a hx))]

/-- Helper: the per-item line-item mapping never reads the client discount
field. -/
theorem mkLineItem_eraseClientDiscount (t : Option String) (d : ℚ) (i : LineItemRequest) :
    mkLineItem t d (eraseClientDiscount i) = mkLineItem t d i := rfl

/-- Claim C1: the discount percent embedded in any outgoing line item is
derived solely from the server-resolved tier, never from the client
discount_percent: two item lists identical except for their
discount_percent fields yield identical outgoing line items, including
identical applied_discount blocks. -/
theorem server_discount_independent_of_client (items1 items2 : List LineItemRequest)
    (resolved : ResolvedTier)
    (h : items1.map eraseClientDiscount = items2.map eraseClientDiscount) :
    buildLineItems items1 resolved = buildLineItems items2 resolved := by
  have key : ∀ (l : List LineItemRequest),
      buildLineItems l resolved =
        (l.map eraseClientDiscount).map (mkLineItem resolved.tier resolved.discount) := by
    intro l
    rw [List.map_map]
    exact List.map_congr_left (fun a _ =>
      (mkLineItem_eraseClientDiscount resolved.tier resolved.discount a).symm)
  rw [key items1, key items2, h]

/-- Witness for C1: concrete requests differing only in the client
discount field produce the same payload. -/
theorem server_discount_independent_of_client_witness :
    buildLineItems [⟨"v1", 2, 50, 99⟩] ⟨some "GOLD", 4⟩
      = buildLineItems [⟨"v1", 2, 50, 0⟩] ⟨some "GOLD", 4⟩ :=
  server_discount_independent_of_client _ _ _ (by decide)

/-- Claim C6: for every line item with positive resolved discount, the
attached amount is round2(price * quantity * percent / 100) with half-up
rounding at the cent boundary, computed per item from that item alone; and
price 19.99, quantity 3, percent 8 gives 4.80 (480 cents). -/
theorem discount_amount_half_up (price quantity percent : ℚ) (t : Option String)
    (item : LineItemRequest) :
    calculateDiscountAmount price quantity percent
        = round2HalfUp (price * quantity * percent / 100)
      ∧ (∀ b, (mkLineItem t percent item).applied_discount = some b →
          b.amount = round2HalfUp (item.price * item.quantity * percent / 100))
      ∧ calculateDiscountAmount (1999/100) 3 8 = 480 := by
  refine ⟨?_, ?_, ?_⟩
  · simp only [calculateDiscountAmount, round2HalfUp, round_eq]
  · intro b hb
    by_cases hp : 0 < percent
    · simp only [mkLineItem, if_pos hp, Option.some.injEq] at hb
      rw [← hb]
      simp only [calculateDiscountAmount, round2HalfUp, round_eq]
    · simp [mkLineItem, hp] at hb
  · show round ((1999/100 : ℚ) * 3 * 8 / 100 * 100) = 480
    rw [round_eq, Int.floor_eq_iff]
    norm_num

/-- Witness for C6: the amount field of the concrete applied-discount
block at price 19.99, quantity 3, percent 8 equals the half-up
rounding. -/
theorem discount_amount_half_up_witness :
    (AppliedDiscount.mk (optStr (some "DIAMOND") ++ " Tier Discount " ++ toString (8 : ℚ) ++ "%")
        "percentage" (toString (8 : ℚ))
        (calculateDiscountAmount (1999/100) 3 8)).amount
      = round2HalfUp ((1999/100 : ℚ) * 3 * 8 / 100) :=
  (discount_amount_half_up (1999/100) 3 8 (some "DIAMOND")
    ⟨"v1", 3, 1999/100, 0⟩).2.1 _ (by norm_num [mkLineItem])

/-- Claim C7: when the resolved discount is 0 the outgoing line item
carries no applied_discount field at all, and when it is positive every
outgoing line item carries one. -/
theorem zero_discount_omission (items : List LineItemRequest) (resolved : ResolvedTier) :
    (resolved.discount = 0 →
      ∀ li ∈ buildLineItems items resolved, li.applied_discount = none)
    ∧ (0 < resolved.discount →
      ∀ li ∈ buildLineItems items resolved, li.applied_discount.isSome = true) := by
  constructor
  · intro h0 li hli
    simp only [buildLineItems, List.mem_map] at hli
    obtain ⟨i, _, rfl⟩ := hli
    simp [mkLineItem, h0]
  · intro hpos li hli
    simp only [buildLineItems, List.mem_map] at hli
    obtain ⟨i, _, rfl⟩ := hli
    simp [mkLineItem, hpos]

/-- Witness for C7: a zero-discount resolution omits the block, a
4-percent one attaches it. -/
theorem zero_discount_omission_witness :
    (mkLineItem (some "MEMBER") 0 ⟨"v1", 1, 10, 50⟩).applied_discount = none
    ∧ (mkLineItem (some "GOLD") 4 ⟨"v1", 1, 10, 50⟩).applied_discount.isSome = true := by
  constructor
  · exact (zero_discount_omission [⟨"v1", 1, 10, 50⟩] ⟨some "MEMBER", 0⟩).1 rfl _
      (by simp [buildLineItems])
  · exact (zero_discount_omission [⟨"v1", 1, 10, 50⟩] ⟨some "GOLD", 4⟩).2 (by norm_num) _
      (by simp [buildLineItems])

/-- Claim C8: a valid cache entry is returned unchanged with no remote
call; any failed load returns the default config without touching the
cache state; a successful load caches the built config with expiry
now + CACHE_TTL. -/
theorem cache_fallback_atomicity (st : CacheState) (now : Nat)
    (outcome : ConfigFetchOutcome) :
    (∀ c, st.cachedTierConfig = some c → now < st.cacheExpiry →
        getTierConfig st now outcome = ⟨c, st, false⟩)
    ∧ (st.cachedTierConfig = none ∨ st.cacheExpiry ≤ now →
        outcome.isFailure = true →
        getTierConfig st now outcome = ⟨getDefaultTierConfig, st, true⟩)
    ∧ (∀ s, st.cachedTierConfig = none ∨ st.cacheExpiry ≤ now →
        outcome = .ok s →
        getTierConfig st now outcome =
          ⟨buildTierConfig s, ⟨some (buildTierConfig s), now + CACHE_TTL⟩, true⟩) := by
  have hfetch : st.cachedTierConfig = none ∨ st.cacheExpiry ≤ now →
      getTierConfig st now outcome = getTierConfigFetch st now outcome := by
    intro hmiss
    rcases hmiss with h | h
    · simp [getTierConfig, h]
    · cases hcc : st.cachedTierConfig with
      | none => simp [getTierConfig, hcc]
      | some c => simp [getTierConfig, hcc, if_neg (Nat.not_lt.mpr h)]
  refine ⟨?_, ?_, ?_⟩
  · intro c hc hlt
    simp [getTierConfig, hc, hlt]
  · intro hmiss hfail
    rw [hfetch hmiss]
    cases outcome <;> simp_all [getTierConfigFetch, ConfigFetchOutcome.isFailure]
  · intro s hmiss hok
    rw [hfetch hmiss, hok]
    rfl

/-- Witness for C8: the three cache behaviors at concrete states. -/
theorem cache_fallback_atomicity_witness :
    getTierConfig ⟨some getDefaultTierConfig, 100⟩ 50 .thrown
        = ⟨getDefaultTierConfig, ⟨some getDefaultTierConfig, 100⟩, false⟩
    ∧ getTierConfig ⟨none, 0⟩ 50 .thrown = ⟨getDefaultTierConfig, ⟨none, 0⟩, true⟩
    ∧ getTierConfig ⟨none, 0⟩ 50 (.ok emptySettings)
        = ⟨buildTierConfig emptySettings, ⟨some (buildTierConfig emptySettings),
            50 + CACHE_TTL⟩, true⟩ :=
  ⟨(cache_fallback_atomicity ⟨some getDefaultTierConfig, 100⟩ 50 .thrown).1 _ rfl
      (by norm_num),
   (cache_fallback_atomicity ⟨none, 0⟩ 50 .thrown).2.1 (Or.inl rfl) rfl,
   (cache_fallback_atomicity ⟨none, 0⟩ 50 (.ok emptySettings)).2.2 _ (Or.inl rfl) rfl⟩

/-- Claim C9: a falsy customerId resolves to no tier with no remote call,
and a failed profile fetch (non-ok status or thrown error) resolves to no
tier instead of propagating. -/
theorem resolution_failure_absorbed (customerId : Option String)
    (fetched : CustomerFetch) (cfg : TierConfig) :
    (jsFalsyId customerId = true →
        getCustomerTier customerId fetched cfg = (⟨none, 0⟩, false))
    ∧ (∀ status, fetched = .httpError status →
        (getCustomerTier customerId fetched cfg).1 = ⟨none, 0⟩)
    ∧ (fetched = .thrown → (getCustomerTier customerId fetched cfg).1 = ⟨none, 0⟩) := by
  refine ⟨?_, ?_, ?_⟩
  · intro h
    simp [getCustomerTier, h]
  · intro status h
    subst h
    by_cases hf : jsFalsyId customerId = true <;> simp [getCustomerTier, hf]
  · intro h
    subst h
    by_cases hf : jsFalsyId customerId = true <;> simp [getCustomerTier, hf]

/-- Witness for C9: empty id, a 404 profile fetch and a thrown profile
fetch all resolve to no tier. -/
theorem resolution_failure_absorbed_witness :
    getCustomerTier (some "") (.ok 5000 ["GOLD"]) getDefaultTierConfig
        = (⟨none, 0⟩, false)
    ∧ (getCustomerTier (some "123") (.httpError 404) getDefaultTierConfig).1 = ⟨none, 0⟩
    ∧ (getCustomerTier (some "123") .thrown getDefaultTierConfig).1 = ⟨none, 0⟩ :=
  ⟨(resolution_failure_absorbed (some "") (.ok 5000 ["GOLD"]) getDefaultTierConfig).1 rfl,
   (resolution_failure_absorbed (some "123") (.httpError 404) getDefaultTierConfig).2.1 404 rfl,
   (resolution_failure_absorbed (some "123") .thrown getDefaultTierConfig).2.2 rfl⟩

/-- Claim C4: with every attempt rate limited and no Retry-After header,
the wrapper waits INITIAL_RETRY_DELAY * 2 ^ attempt on attempts 0, 1 and
2, makes exactly MAX_RETRIES + 1 attempts in total (so at most MAX_RETRIES
retries), and then fails with the rate-limit-exhausted error; with a
Retry-After of secs seconds on the first attempt it waits exactly
secs * 1000 milliseconds. -/
theorem rate_limit_retry_law (s1 s2 : Nat → FetchOutcome) (secs : Nat)
    (h1 : s1 = fun _ => .response 429 none false)
    (h2 : s2 = fun i => if i = 0 then .response 429 (some secs) false
                        else .response 200 none false) :
    createDraftOrderWithRetry s1
        = some ⟨[backoffDelay 0, backoffDelay 1, backoffDelay 2],
                .failure .rateLimitExceeded, MAX_RETRIES + 1⟩
    ∧ createDraftOrderWithRetry s2 = some ⟨[secs * 1000], .success, 2⟩ := by
  subst h1 h2
  exact ⟨rfl, rfl⟩

/-- Witness for C4: the retry law at a concrete Retry-After of 7
seconds. -/
theorem rate_limit_retry_law_witness :
    createDraftOrderWithRetry (fun _ => .response 429 none false)
        = some ⟨[backoffDelay 0, backoffDelay 1, backoffDelay 2],
                .failure .rateLimitExceeded, MAX_RETRIES + 1⟩
    ∧ createDraftOrderWithRetry
        (fun i => if i = 0 then .response 429 (some 7) false
                  else .response 200 none false)
        = some ⟨[7 * 1000], .success, 2⟩ :=
  rate_limit_retry_law _ _ 7 rfl rfl

/-- Claim C5, evaluated at the failing input: a 400 response whose body
text contains the word fetch is not propagated immediately; the wrapper
waits the backoff delay, retries, and here even succeeds on the second
attempt, because the synthesized API error is caught by the catch clause
whose message test is meant for network errors. -/
theorem fourxx_fetch_body_retried :
    createDraftOrderWithRetry
        (fun i => if i = 0 then .response 400 none true else .response 200 none false)
      = some ⟨[backoffDelay 0], .success, 2⟩ := rfl

/-- Claim C10, counterexample to the claim as stated: the sixth tier slot
does not use its present fields as given.  With tier_6_tag VIP and
tier_6_threshold 500 supplied (and everything else absent), the built
config carries tag MEMBER and threshold 0 in the sixth slot, while the
uniform per-field reading of the claim carries VIP and 500. -/
theorem uniform_defaulting_counterexample :
    buildTierConfig vipSettings ≠ specUniformTierConfig vipSettings
    ∧ vipSettings.tier_6_tag = some "VIP"
    ∧ vipSettings.tier_6_threshold = some 500
    ∧ ((buildTierConfig vipSettings).tiers.getD 5 ⟨"", "", 0, 0⟩).tag = "MEMBER"
    ∧ ((buildTierConfig vipSettings).tiers.getD 5 ⟨"", "", 0, 0⟩).threshold = 0
    ∧ ((specUniformTierConfig vipSettings).tiers.getD 5 ⟨"", "", 0, 0⟩).tag = "VIP"
    ∧ ((specUniformTierConfig vipSettings).tiers.getD 5 ⟨"", "", 0, 0⟩).threshold = 500 := by
  exact ⟨by decide, rfl, rfl, rfl, rfl, rfl, rfl⟩

/-- Claim C10 as amended: each missing field is replaced by its own named
default and each present field is used as given, except that the sixth
slot always has threshold 0 and takes its tag from the tier_6_name field;
no single missing field fails the load or affects another field. -/
theorem per_field_defaulting_amended (s : ThemeSettings) :
    buildTierConfig s = specAmendedTierConfig s := rfl

/-- Helper: the membership test of the tag loop against the uppercased
customer tags agrees with the case-insensitive matching predicate over the
raw tags. -/
theorem contains_upcase_iff (rawTags : List String) (t : TierDefinition) :
    (rawTags.map upcase).contains (upcase t.tag) = tagMatchesCI rawTags t := by
  rw [Bool.eq_iff_iff]
  simp only [tagMatchesCI, List.any_eq_true, beq_iff_eq]
  constructor
  · intro h
    obtain ⟨x, hx, hbeq⟩ := List.contains_iff_exists_mem_beq.mp h
    obtain ⟨s, hs, rfl⟩ := List.mem_map.mp hx
    exact ⟨s, hs, (beq_iff_eq.mp hbeq).symm⟩
  · rintro ⟨s, hs, hse⟩
    exact List.contains_iff_exists_mem_beq.mpr
      ⟨upcase s, List.mem_map_of_mem upcase hs, beq_iff_eq.mpr hse.symm⟩

/-- Helper: the tag loop is the first-match selection of the claim
wording. -/
theorem tagScan_eq_specTagSelect (rawTags : List String) :
    ∀ (l : List TierDefinition),
      tagScan (rawTags.map upcase) l = specTagSelect l rawTags := by
  intro l
  induction l with
  | nil => rfl
  | cons t r ih =>
    simp only [tagScan, specTagSelect, contains_upcase_iff]
    by_cases hm : tagMatchesCI rawTags t = true
    · rw [if_pos hm, List.find?_cons_of_pos _ hm]
    · rw [if_neg hm, List.find?_cons_of_neg _ hm]
      exact ih

/-- Claim C3: the tag loop runs exactly when prioritize_tags is set; when
set, the first stored tier whose tag matches a customer tag
case-insensitively wins outright regardless of totalSpent, and with no
match the spend-based result is returned; when unset the spend-based
result is returned.  On the default config with totalSpent 0 and customer
tag GOLD the result is the GOLD tier at 4 percent. -/
theorem tag_override_precedence (cfg : TierConfig) (spent : ℚ) (rawTags : List String) :
    (cfg.prioritize_tags = false →
        resolveTierCore cfg spent rawTags = spendResolved cfg.tiers spent)
    ∧ (cfg.prioritize_tags = true →
        resolveTierCore cfg spent rawTags =
          match specTagSelect cfg.tiers rawTags with
          | some t => ⟨some t.name, t.discount⟩
          | none => spendResolved cfg.tiers spent)
    ∧ resolveTierCore getDefaultTierConfig 0 ["GOLD"] = ⟨some "GOLD", 4⟩ := by
  refine ⟨?_, ?_, ?_⟩
  · intro h
    simp [resolveTierCore, h, spendResolved]
  · intro h
    simp only [resolveTierCore, h, if_true]
    rw [tagScan_eq_specTagSelect]
    cases specTagSelect cfg.tiers rawTags <;> simp [spendResolved]
  · decide

/-- Witness for C3: a lower-case customer tag gold matches the GOLD tier
of the default config under tag priority. -/
theorem tag_override_precedence_witness :
    resolveTierCore getDefaultTierConfig 1500 ["gold"]
      = (match specTagSelect getDefaultTierConfig.tiers ["gold"] with
         | some t => (⟨some t.name, t.discount⟩ : ResolvedTier)
         | none => spendResolved getDefaultTierConfig.tiers 1500) :=
  (tag_override_precedence getDefaultTierConfig 1500 ["gold"]).2.1 rfl

/-- Helper: the disjunctive reading of the qualifying bound equals the
implication reading. -/
theorem qual_imp_iff {spent : ℚ} {l : List TierDefinition} {t : TierDefinition} :
    (∀ x ∈ l, spent < x.threshold ∨ x.threshold ≤ t.threshold) ↔
      ∀ u ∈ l, u.threshold ≤ spent → u.threshold ≤ t.threshold := by
  constructor
  · intro h u hu hq
    rcases h u hu with h1 | h2
    · exact absurd hq (not_le.mpr h1)
    · exact h2
  · intro h u hu
    by_cases hq : u.threshold ≤ spent
    · exact Or.inr (h u hu hq)
    · exact Or.inl (lt_of_not_le hq)

/-- Helper: Prop form of leAllQualifying. -/
theorem leAllQualifying_eq_true {spent : ℚ} {l : List TierDefinition}
    {t : TierDefinition} :
    leAllQualifying spent l t = true ↔
      ∀ u ∈ l, u.threshold ≤ spent → u.threshold ≤ t.threshold := by
  simp [leAllQualifying, List.all_eq_true, qual_imp_iff]

/-- Helper: Prop form of scanPred. -/
theorem scanPred_eq_true {spent m : ℚ} {l : List TierDefinition} {t : TierDefinition} :
    scanPred spent m l t = true ↔
      (t.threshold ≤ spent ∧ m < t.threshold)
        ∧ ∀ u ∈ l, u.threshold ≤ spent → u.threshold ≤ t.threshold := by
  simp [scanPred, leAllQualifying, List.all_eq_true, qual_imp_iff]

/-- Helper: Prop form of specQualMax. -/
theorem specQualMax_eq_true {l : List TierDefinition} {spent : ℚ} {t : TierDefinition} :
    specQualMax l spent t = true ↔
      t.threshold ≤ spent
        ∧ ∀ u ∈ l, u.threshold ≤ spent → u.threshold ≤ t.threshold := by
  simp [specQualMax, leAllQualifying, List.all_eq_true, qual_imp_iff]

/-- Helper: a nonempty set of qualifying tiers has a member of maximal
threshold. -/
theorem exists_qual_max (spent : ℚ) :
    ∀ (l : List TierDefinition), (∃ u ∈ l, u.threshold ≤ spent) →
      ∃ t ∈ l, t.threshold ≤ spent
        ∧ ∀ v ∈ l, v.threshold ≤ spent → v.threshold ≤ t.threshold := by
  intro l
  induction l with
  | nil =>
    rintro ⟨u, hu, -⟩
    exact absurd hu (List.not_mem_nil u)
  | cons a r ih =>
    rintro ⟨u, hu, huq⟩
    by_cases hra : ∃ v ∈ r, v.threshold ≤ spent
    · obtain ⟨t, ht, htq, hmax⟩ := ih hra
      by_cases hq : a.threshold ≤ spent
      · by_cases hat : a.threshold ≤ t.threshold
        · refine ⟨t, List.mem_cons_of_mem a ht, htq, ?_⟩
          intro v hv hvq
          rcases List.mem_cons.mp hv with rfl | hv'
          · exact hat
          · exact hmax v hv' hvq
        · refine ⟨a, List.mem_cons_self a r, hq, ?_⟩
          intro v hv hvq
          rcases List.mem_cons.mp hv with rfl | hv'
          · exact le_refl _
          · exact le_trans (hmax v hv' hvq) (le_of_not_le hat)
      · refine ⟨t, List.mem_cons_of_mem a ht, htq, ?_⟩
        intro v hv hvq
        rcases List.mem_cons.mp hv with rfl | hv'
        · exact absurd hvq hq
        · exact hmax v hv' hvq
    · have hqa : a.threshold ≤ spent := by
        rcases List.mem_cons.mp hu with rfl | hu'
        · exact huq
        · exact absurd ⟨u, hu', huq⟩ hra
      refine ⟨a, List.mem_cons_self a r, hqa, ?_⟩
      intro v hv hvq
      rcases List.mem_cons.mp hv with rfl | hv'
      · exact le_refl _
      · exact absurd ⟨v, hv', hvq⟩ hra

/-- Helper: characterization of the spend loop from an arbitrary starting
state: it returns the first tier that qualifies, strictly beats the
starting maxThreshold, and is maximal among qualifying tiers; if there is
no such tier the state is unchanged. -/
theorem foldl_spendStep_eq (spent : ℚ) :
    ∀ (l : List TierDefinition) (s : SpendState),
      l.foldl (spendStep spent) s =
        (match l.find? (scanPred spent s.maxThreshold l) with
          | some t => ⟨some t.name, t.discount, t.threshold⟩
          | none => s) := by
  intro l
  induction l with
  | nil => intro s; rfl
  | cons a r ih =>
    intro s
    rw [List.foldl_cons]
    by_cases hcond : a.threshold ≤ spent ∧ s.maxThreshold < a.threshold
    · have hstep : spendStep spent s a = ⟨some a.name, a.discount, a.threshold⟩ := by
        simp only [spendStep, if_pos hcond]
      rw [hstep, ih ⟨some a.name, a.discount, a.threshold⟩]
      by_cases hall : leAllQualifying spent r a = true
      · have hallP := leAllQualifying_eq_true.mp hall
        have hhead : scanPred spent s.maxThreshold (a :: r) a = true := by
          rw [scanPred_eq_true]
          refine ⟨hcond, ?_⟩
          intro v hv hvq
          rcases List.mem_cons.mp hv with rfl | hv'
          · exact le_refl _
          · exact hallP v hv' hvq
        rw [List.find?_cons_of_pos _ hhead]
        have hnone : r.find? (scanPred spent a.threshold r) = none := by
          rw [List.find?_eq_none]
          intro x hx hpred
          rcases scanPred_eq_true.mp hpred with ⟨⟨hxq, hxgt⟩, -⟩
          exact absurd (hallP x hx hxq) (not_le.mpr hxgt)
        rw [hnone]
      · obtain ⟨u, hu, huq, hub⟩ :
            ∃ u ∈ r, u.threshold ≤ spent ∧ a.threshold < u.threshold := by
          by_contra hno
          push_neg at hno
          exact hall (leAllQualifying_eq_true.mpr hno)
        have hhead : ¬ scanPred spent s.maxThreshold (a :: r) a = true := by
          intro hpred
          rcases scanPred_eq_true.mp hpred with ⟨-, hmax2⟩
          exact absurd (hmax2 u (List.mem_cons_of_mem a hu) huq) (not_le.mpr hub)
        have hcongr : r.find? (scanPred spent s.maxThreshold (a :: r))
            = r.find? (scanPred spent a.threshold r) := by
          apply find?_congr_mem
          intro x hx
          rw [Bool.eq_iff_iff, scanPred_eq_true, scanPred_eq_true]
          constructor
          · rintro ⟨⟨hxq, -⟩, hall2⟩
            have hua : u.threshold ≤ x.threshold :=
              hall2 u (List.mem_cons_of_mem a hu) huq
            exact ⟨⟨hxq, lt_of_lt_of_le hub hua⟩,
              fun v hv hvq => hall2 v (List.mem_cons_of_mem a hv) hvq⟩
          · rintro ⟨⟨hxq, hxa⟩, hall2⟩
            refine ⟨⟨hxq, lt_trans hcond.2 hxa⟩, ?_⟩
            intro v hv hvq
            rcases List.mem_cons.mp hv with rfl | hv'
            · exact le_of_lt hxa
            · exact hall2 v hv' hvq
        obtain ⟨t0, ht0⟩ : ∃ t0, r.find? (scanPred spent a.threshold r) = some t0 := by
          obtain ⟨t, ht, htq, hmax⟩ := exists_qual_max spent r ⟨u, hu, huq⟩
          have hpred : scanPred spent a.threshold r t = true := by
            rw [scanPred_eq_true]
            exact ⟨⟨htq, lt_of_lt_of_le hub (hmax u hu huq)⟩, hmax⟩
          exact Option.isSome_iff_exists.mp (List.find?_isSome.mpr ⟨t, ht, hpred⟩)
        rw [List.find?_cons_of_neg _ hhead, hcongr, ht0]
    · have hstep : spendStep spent s a = s := by
        simp only [spendStep, if_neg hcond]
      rw [hstep, ih s]
      have hhead : ¬ scanPred spent s.maxThreshold (a :: r) a = true := by
        intro hpred
        exact hcond (scanPred_eq_true.mp hpred).1
      rw [List.find?_cons_of_neg _ hhead]
      have hcongr : r.find? (scanPred spent s.maxThreshold (a :: r))
          = r.find? (scanPred spent s.maxThreshold r) := by
        apply find?_congr_mem
        intro x hx
        rw [Bool.eq_iff_iff, scanPred_eq_true, scanPred_eq_true]
        constructor
        · rintro ⟨hx1, hall2⟩
          exact ⟨hx1, fun v hv hvq => hall2 v (List.mem_cons_of_mem a hv) hvq⟩
        · rintro ⟨⟨hxq, hxm⟩, hall2⟩
          refine ⟨⟨hxq, hxm⟩, ?_⟩
          intro v hv hvq
          rcases List.mem_cons.mp hv with rfl | hv'
          · have hvm : ¬ s.maxThreshold < v.threshold := fun hlt => hcond ⟨hvq, hlt⟩
            exact le_of_lt (lt_of_le_of_lt (le_of_not_lt hvm) hxm)
          · exact hall2 v hv' hvq
      rw [hcongr]

/-- Claim C2: for every tier list with non-negative thresholds and every
non-negative totalSpent, the spend loop selects exactly the first tier in
scan order whose threshold is qualifying and maximal among qualifying
thresholds (so a threshold tie is broken in favor of the earlier tier),
and leaves the no-tier initial state when no tier qualifies; on the
concrete tie at threshold 1000 with totalSpent 1500 the first tier A
wins. -/
theorem spend_resolution_first_at_max (tiers : List TierDefinition) (spent : ℚ)
    (_hspent : 0 ≤ spent) (hthr : ∀ t ∈ tiers, 0 ≤ t.threshold) :
    (spendScan spent tiers =
      match specSpendSelect tiers spent with
      | some t => ⟨some t.name, t.discount, t.threshold⟩
      | none => ⟨none, 0, -1⟩)
    ∧ spendScan 1500 [⟨"A", "A", 5, 1000⟩, ⟨"B", "B", 7, 1000⟩]
        = ⟨some "A", 5, 1000⟩ := by
  constructor
  · rw [spendScan, foldl_spendStep_eq spent tiers ⟨none, 0, -1⟩]
    have hc : tiers.find?
          (scanPred spent (SpendState.mk none 0 (-1)).maxThreshold tiers)
        = specSpendSelect tiers spent := by
      apply find?_congr_mem
      intro t ht
      rw [Bool.eq_iff_iff, scanPred_eq_true, specQualMax_eq_true]
      constructor
      · rintro ⟨⟨hq, -⟩, hall⟩
        exact ⟨hq, hall⟩
      · rintro ⟨hq, hall⟩
        exact ⟨⟨hq, lt_of_lt_of_le (by norm_num) (hthr t ht)⟩, hall⟩
    rw [hc]
  · decide

/-- Witness for C2: the spend loop equals the first-at-maximum selection
on the concrete threshold tie. -/
theorem spend_resolution_first_at_max_witness :
    spendScan 1500 [⟨"A", "A", 5, 1000⟩, ⟨"B", "B", 7, 1000⟩]
      = (match specSpendSelect [⟨"A", "A", 5, 1000⟩, ⟨"B", "B", 7, 1000⟩] 1500 with
         | some t => (⟨some t.name, t.discount, t.threshold⟩ : SpendState)
         | none => ⟨none, 0, -1⟩) :=
  (spend_resolution_first_at_max [⟨"A", "A", 5, 1000⟩, ⟨"B", "B", 7, 1000⟩] 1500
    (by norm_num) (by decide)).1
